import Mathlib

/-!
Shallow embedding of the behave fire-behavior engine (surface and crown fire
calculations) and proofs about it.

Source files embedded: `src/behave/surfaceInputs.cpp`, `src/behave/surface.cpp`,
`src/behave/crown.cpp`.  Stored `double` values are modelled as rationals
(every IEEE double is a rational); the two places where the code raises a
value to a non-integral power (`pow(x, 1.5)` and `pow(x, 0.46)`) are modelled
with the real-valued `Real.rpow`, so those two functions return reals.
Unit-conversion helpers (`toBaseUnits`/`fromBaseUnits`) are the external
unit-library collaborator; all values here are taken in the engine's base
units, where those conversions are the identity.  Fields of `SurfaceInputs`
that none of the embedded computations read (moisture working array, moisture
scenarios, two-fuel-models method, orientation mode, chaparral/aspen/palmetto
ecological parameters, elapsed time, air temperature) are elided.
-/

/-- Wind reference-height input modes (`WindHeightInputMode` in
`surfaceEnums.h`, which is not among the sources; the three members used by
the embedded code are `DirectMidflame` (the default set by
`initializeMembers`), `TwentyFoot` and `TenMeter`). -/
inductive WindHeightInputModeEnum
  | DirectMidflame
  | TwentyFoot
  | TenMeter
deriving DecidableEq

/-- The input-staging structure `SurfaceInputs` (surfaceInputs.cpp), restricted
to the fields read or written by the embedded computations. -/
structure SurfaceInputs where
  fuelModelNumber : Int
  secondFuelModelNumber : Int
  moistureOneHour : ℚ
  moistureTenHour : ℚ
  moistureHundredHour : ℚ
  moistureLiveHerbaceous : ℚ
  moistureLiveWoody : ℚ
  slope : ℚ
  aspect : ℚ
  windSpeed : ℚ
  windDirection : ℚ
  windHeightInputMode : WindHeightInputModeEnum
  isUsingTwoFuelModels : Bool
  isUsingPalmettoGallberry : Bool
  isUsingWesternAspen : Bool
  isUsingChaparral : Bool
  firstFuelModelCoverage : ℚ
  canopyCover : ℚ
  canopyHeight : ℚ
  crownRatio : ℚ
deriving DecidableEq

/-- `SurfaceInputs::initializeMembers` (surfaceInputs.cpp lines 48-104),
restricted to the carried fields: everything numeric is zeroed, the special
fuel flags are cleared, and the wind-height mode defaults to
`DirectMidflame`. -/
def initialSurfaceInputs : SurfaceInputs where
  fuelModelNumber := 0
  secondFuelModelNumber := 0
  moistureOneHour := 0
  moistureTenHour := 0
  moistureHundredHour := 0
  moistureLiveHerbaceous := 0
  moistureLiveWoody := 0
  slope := 0
  aspect := 0
  windSpeed := 0
  windDirection := 0
  windHeightInputMode := WindHeightInputModeEnum.DirectMidflame
  isUsingTwoFuelModels := false
  isUsingPalmettoGallberry := false
  isUsingWesternAspen := false
  isUsingChaparral := false
  firstFuelModelCoverage := 0
  canopyCover := 0
  canopyHeight := 0
  crownRatio := 0

/-- `SurfaceInputs::setFuelModelNumber` (surfaceInputs.cpp lines 260-263). -/
def setFuelModelNumber (s : SurfaceInputs) (fuelModelNumber : Int) : SurfaceInputs :=
  { s with fuelModelNumber := fuelModelNumber }

/-- `SurfaceInputs::setWindDirection` (surfaceInputs.cpp lines 365-368): the
argument is stored as given, with no normalization. -/
def setWindDirection (s : SurfaceInputs) (windDirection : ℚ) : SurfaceInputs :=
  { s with windDirection := windDirection }

/-- `SurfaceInputs::setWindSpeed` (surfaceInputs.cpp lines 359-363): stores the
wind-height input mode and the wind speed (speed given in base units; the
`SpeedUnits::toBaseUnits` call is the unit-library collaborator). -/
def setWindSpeed (s : SurfaceInputs) (windSpeed : ℚ)
    (windHeightInputMode : WindHeightInputModeEnum) : SurfaceInputs :=
  { s with windHeightInputMode := windHeightInputMode, windSpeed := windSpeed }

/-- `SurfaceInputs::setWindHeightInputMode` (surfaceInputs.cpp lines 255-258). -/
def setWindHeightInputMode (s : SurfaceInputs)
    (windHeightInputMode : WindHeightInputModeEnum) : SurfaceInputs :=
  { s with windHeightInputMode := windHeightInputMode }

/-- `SurfaceInputs::setSlope` (surfaceInputs.cpp lines 339-342), slope given in
base units. -/
def setSlope (s : SurfaceInputs) (slope : ℚ) : SurfaceInputs :=
  { s with slope := slope }

/-- `SurfaceInputs::setIsUsingPalmettoGallberry` (surfaceInputs.cpp lines
514-523): stores the flag, and when it is enabled clears the chaparral and
western-aspen flags. -/
def setIsUsingPalmettoGallberry (s : SurfaceInputs) (b : Bool) : SurfaceInputs :=
  let s := { s with isUsingPalmettoGallberry := b }
  if s.isUsingPalmettoGallberry then
    { s with isUsingChaparral := false, isUsingWesternAspen := false }
  else s

/-- `SurfaceInputs::setIsUsingWesternAspen` (surfaceInputs.cpp lines 224-233):
stores the flag, and when it is enabled clears the chaparral and
palmetto-gallberry flags. -/
def setIsUsingWesternAspen (s : SurfaceInputs) (b : Bool) : SurfaceInputs :=
  let s := { s with isUsingWesternAspen := b }
  if s.isUsingWesternAspen then
    { s with isUsingChaparral := false, isUsingPalmettoGallberry := false }
  else s

/-- `SurfaceInputs::setIsUsingChaparral` (surfaceInputs.cpp lines 590-599):
stores the flag, and when it is enabled clears the palmetto-gallberry and
western-aspen flags. -/
def setIsUsingChaparral (s : SurfaceInputs) (b : Bool) : SurfaceInputs :=
  let s := { s with isUsingChaparral := b }
  if s.isUsingChaparral then
    { s with isUsingPalmettoGallberry := false, isUsingWesternAspen := false }
  else s

/-- Number of special-fuel flags that are set. -/
def specialFuelFlagCount (s : SurfaceInputs) : Nat :=
  (cond s.isUsingPalmettoGallberry 1 0) + (cond s.isUsingWesternAspen 1 0) +
    (cond s.isUsingChaparral 1 0)

/-- The `while (windDirection >= 360.0) windDirection -= 360.0;` loop of
`SurfaceInputs::updateSurfaceInputs` (surfaceInputs.cpp lines 132-135). -/
def reduceWindDirection (w : ℚ) : ℚ :=
  if h : 360 ≤ w then reduceWindDirection (w - 360) else w
termination_by (⌈w / 360⌉).toNat
decreasing_by
  have h360 : (0 : ℚ) < 360 := by norm_num
  have hdiv : (1 : ℚ) ≤ w / 360 := by rw [le_div_iff₀ h360]; linarith
  have hceil : (1 : ℤ) ≤ ⌈w / 360⌉ := by
    have hle := Int.le_ceil (w / 360)
    exact_mod_cast hdiv.trans hle
  have hsub : (w - 360) / 360 = w / 360 - 1 := by ring
  rw [hsub, Int.ceil_sub_one]
  omega

/-- `SurfaceInputs::updateSurfaceInputs` (surfaceInputs.cpp lines 106-145),
restricted to the carried fields: the individual setters are applied in the
source's order, the wind direction gets 360 added once if negative and then
360 subtracted while at least 360, and the two-fuel-models flag is cleared.
Moisture values are taken in base units; the per-setter
`updateMoisturesBasedOnInputMode` refresh only rewrites the (elided) moisture
working array. -/
def updateSurfaceInputs (s : SurfaceInputs) (fuelModelNumber : Int)
    (moistureOneHour moistureTenHour moistureHundredHour : ℚ)
    (moistureLiveHerbaceous moistureLiveWoody : ℚ) (windSpeed : ℚ)
    (windHeightInputMode : WindHeightInputModeEnum) (windDirection : ℚ)
    (slope aspect canopyCover canopyHeight crownRatio : ℚ) : SurfaceInputs :=
  let s := setSlope s slope
  let s := { s with aspect := aspect }
  let s := setFuelModelNumber s fuelModelNumber
  let s := { s with moistureOneHour := moistureOneHour }
  let s := { s with moistureTenHour := moistureTenHour }
  let s := { s with moistureHundredHour := moistureHundredHour }
  let s := { s with moistureLiveHerbaceous := moistureLiveHerbaceous }
  let s := { s with moistureLiveWoody := moistureLiveWoody }
  let s := setWindSpeed s windSpeed windHeightInputMode
  let s := setWindHeightInputMode s windHeightInputMode
  let wd := if windDirection < 0 then windDirection + 360 else windDirection
  let wd := reduceWindDirection wd
  let s := setWindDirection s wd
  let s := { s with isUsingTwoFuelModels := false }
  let s := { s with canopyCover := canopyCover }
  let s := { s with canopyHeight := canopyHeight }
  let s := { s with crownRatio := crownRatio }
  s

/-- The fuel-catalog collaborator (`FuelModels`, external per the spec): the
two query functions consumed by the zero-fuel short-circuit of
`Surface::doSurfaceRunInDirectionOfMaxSpread` and
`Surface::doSurfaceRunInDirectionOfInterest`. -/
structure FuelModels where
  isAllFuelLoadZero : Int → Bool
  isFuelModelDefined : Int → Bool

/-- The surface-fire outputs named by the zero-fuel-load property: spread
rate, fireline intensity, flame length and heat per unit area (base units). -/
structure SurfaceFireState where
  spreadRate : ℚ
  firelineIntensity : ℚ
  flameLength : ℚ
  heatPerUnitArea : ℚ
deriving DecidableEq

/-- Modelled from the spec: `SurfaceFireSpread::skipCalculationForZeroLoad`
(surfaceFire.cpp is not among the sources).  The spec's zero-fuel-load
short-circuit sets spread rate and all derived quantities (fireline
intensity, flame length, heat per unit area) to zero without invoking the
Rothermel formulas. -/
def skipCalculationForZeroLoad (_fire : SurfaceFireState) : SurfaceFireState :=
  { spreadRate := 0, firelineIntensity := 0, flameLength := 0, heatPerUnitArea := 0 }

/-- Which branch a surface run takes in `Surface::doSurfaceRunInDirectionOfMaxSpread`
or `Surface::doSurfaceRunInDirectionOfInterest`. -/
inductive SurfaceRunBranch
  | twoFuelModels
  | skipZeroLoad
  | rothermelRun
deriving DecidableEq

/-- `Surface::doSurfaceRunInDirectionOfMaxSpread` (surface.cpp lines 72-107).
The two computations that live outside the sources are parameters:
`calculateWeightedSpreadRate` (surfaceTwoFuelModels.cpp) for the
two-fuel-models branch and `calculateForwardSpreadRate` (surfaceFire.cpp) for
the Rothermel branch.  In two-fuel mode the run dispatches to the two-fuel
collaborator; otherwise, when no special fuel model is in use and the fuel
model has all-zero load or is undefined, the zero-load short-circuit runs;
otherwise the Rothermel spread computation runs on the stored fuel model with
no direction of interest.  The initial `updateMoisturesBasedOnInputMode` call
only rewrites the (elided) moisture working array. -/
def doSurfaceRunInDirectionOfMaxSpread (fuelModels : FuelModels)
    (calculateWeightedSpreadRate : SurfaceInputs → SurfaceFireState)
    (calculateForwardSpreadRate : SurfaceInputs → Int → Bool → ℚ → SurfaceFireState)
    (s : SurfaceInputs) (fire : SurfaceFireState) : SurfaceRunBranch × SurfaceFireState :=
  let directionOfInterest : ℚ := 0
  let hasDirectionOfInterest : Bool := false
  if s.isUsingTwoFuelModels then
    (SurfaceRunBranch.twoFuelModels, calculateWeightedSpreadRate s)
  else
    let isUsingChaparralOrPalmettoGallberryOrWesternAspen :=
      s.isUsingPalmettoGallberry || s.isUsingWesternAspen || s.isUsingChaparral
    if !isUsingChaparralOrPalmettoGallberryOrWesternAspen &&
        (fuelModels.isAllFuelLoadZero s.fuelModelNumber ||
          !fuelModels.isFuelModelDefined s.fuelModelNumber) then
      (SurfaceRunBranch.skipZeroLoad, skipCalculationForZeroLoad fire)
    else
      (SurfaceRunBranch.rothermelRun,
        calculateForwardSpreadRate s s.fuelModelNumber hasDirectionOfInterest directionOfInterest)

/-- `Surface::doSurfaceRunInDirectionOfInterest` (surface.cpp lines 109-138).
Like the direction-of-max-spread run but with a caller-supplied direction of
interest, and — unlike that run — its zero-load check is not bypassed when a
special fuel model is in use.  The direction mode argument is forwarded
verbatim to the collaborator and is elided. -/
def doSurfaceRunInDirectionOfInterest (fuelModels : FuelModels)
    (calculateWeightedSpreadRate : SurfaceInputs → SurfaceFireState)
    (calculateForwardSpreadRate : SurfaceInputs → Int → Bool → ℚ → SurfaceFireState)
    (s : SurfaceInputs) (fire : SurfaceFireState)
    (directionOfInterest : ℚ) : SurfaceRunBranch × SurfaceFireState :=
  let hasDirectionOfInterest : Bool := true
  if s.isUsingTwoFuelModels then
    (SurfaceRunBranch.twoFuelModels, calculateWeightedSpreadRate s)
  else
    if fuelModels.isAllFuelLoadZero s.fuelModelNumber ||
        !fuelModels.isFuelModelDefined s.fuelModelNumber then
      (SurfaceRunBranch.skipZeroLoad, skipCalculationForZeroLoad fire)
    else
      (SurfaceRunBranch.rothermelRun,
        calculateForwardSpreadRate s s.fuelModelNumber hasDirectionOfInterest directionOfInterest)

/-- `Surface::calculateFlameLength` (surface.cpp lines 148-156) with the
fireline intensity given in base units (Btu/ft/s) and the flame length
returned in base units (ft); the boundary `toBaseUnits`/`fromBaseUnits` calls
of the unit-library collaborator are the identity at base units.  The
`pow(firelineIntensity, 0.46)` of the source is the real power. -/
noncomputable def calculateFlameLength (firelineIntensity : ℝ) : ℝ :=
  if firelineIntensity < 1e-7 then 0
  else 0.45 * firelineIntensity ^ (0.46 : ℝ)

/-- Modelled from the spec: `WindSpeedUtility::windSpeedAtTwentyFeetFromTenMeter`
(windSpeedUtility.cpp is not among the sources).  The spec's wind-height
reducer converts a ten-metre wind speed to the twenty-foot equivalent by a
fixed empirical ratio; the ratio 1.15 (ten-metre = 1.15 x twenty-foot) is the
one `Surface::getWindSpeed` (surface.cpp line 896) uses in the opposite
direction. -/
def windSpeedAtTwentyFeetFromTenMeter (windSpeedAtTenMeters : ℚ) : ℚ :=
  windSpeedAtTenMeters / 1.15

/-- `Crown::calculateWindSpeedAtTwentyFeet` (crown.cpp lines 288-305), reading
the wind-height input mode and wind speed stored in the caller's
`SurfaceInputs`: the stored speed itself at `TwentyFoot`, the fixed-ratio
conversion of it at `TenMeter`, and the error sentinel -1 set at entry for
every other mode. -/
def calculateWindSpeedAtTwentyFeet (s : SurfaceInputs) : ℚ :=
  match s.windHeightInputMode with
  | WindHeightInputModeEnum.TwentyFoot => s.windSpeed
  | WindHeightInputModeEnum.TenMeter => windSpeedAtTwentyFeetFromTenMeter s.windSpeed
  | _ => -1

/-- The crown-fire inputs read by the crown engine (`CrownInputs`, whose
source file is not among the sources; only its three getters
`getCanopyBaseHeight`, `getCanopyBulkDensity` and `getFoliarMoisture` are
used by crown.cpp). -/
structure CrownInputs where
  canopyBaseHeight : ℚ
  canopyBulkDensity : ℚ
  foliarMoisture : ℚ
deriving DecidableEq

/-- `Crown::calculateCrownCriticalSurfaceFireIntensity` (crown.cpp lines
162-185): the foliar moisture (already a percentage) is floored at 30, the
canopy base height is converted feet-to-metres (factor 0.3048) and floored at
0.1 m, the critical intensity in kW/m is
`pow(0.010 * crownBaseHeight * (450.0 + 25.9 * foliarMoisture), 1.5)` (with
the published constant 450, which a source comment notes should become 460 at
some point), and the result is converted to Btu/ft/s by the factor
0.288672. -/
noncomputable def calculateCrownCriticalSurfaceFireIntensity
    (foliarMoistureInput canopyBaseHeightFeet : ℚ) : ℝ :=
  let foliarMoisture := if foliarMoistureInput < 30 then 30 else foliarMoistureInput
  let crownBaseHeight := canopyBaseHeightFeet * 0.3048
  let crownBaseHeight := if crownBaseHeight < 0.1 then (0.1 : ℚ) else crownBaseHeight
  ((0.010 * (crownBaseHeight : ℝ) * (450.0 + 25.9 * (foliarMoisture : ℝ))) ^ (1.5 : ℝ)) * 0.288672

/-- `Crown::calculateCrownFireTransitionRatio` (crown.cpp lines 132-139), as a
function of the two stored values it reads: the copied surface fireline
intensity and the critical surface fireline intensity. -/
def calculateCrownFireTransitionRatio
    (crownCopyOfSurfaceFirelineIntensity crownCriticalSurfaceFireIntensity : ℚ) : ℚ :=
  if crownCriticalSurfaceFireIntensity < 1e-7 then 0
  else crownCopyOfSurfaceFirelineIntensity / crownCriticalSurfaceFireIntensity

/-- `Crown::calculateCrownCriticalFireSpreadRate` (crown.cpp lines 261-272):
the canopy bulk density is converted to kg/m3 (factor 16.0185), the critical
rate is 0 when the converted density is below 1e-7 and 3 divided by it
otherwise, and the result is converted m/min to ft/min (factor 3.28084). -/
def calculateCrownCriticalFireSpreadRate (canopyBulkDensity : ℚ) : ℚ :=
  let convertedBulkDensity := 16.0185 * canopyBulkDensity
  let crownCriticalFireSpreadRate :=
    if convertedBulkDensity < 1e-7 then 0 else 3.0 / convertedBulkDensity
  crownCriticalFireSpreadRate * 3.28084

/-- `Crown::calculateCrownFireActiveRatio` (crown.cpp lines 280-286), as a
function of the two stored values it reads: 0 when the critical crown fire
spread rate is below 1e-7, the crown spread rate divided by it otherwise. -/
def calculateCrownFireActiveRatio
    (crownFireSpreadRate crownCriticalFireSpreadRate : ℚ) : ℚ :=
  if crownCriticalFireSpreadRate < 1e-7 then 0
  else crownFireSpreadRate / crownCriticalFireSpreadRate

/-- The crown engine state (`Crown` in crown.cpp): the collaborator reads
(caller's `SurfaceInputs`, `CrownInputs`, and the two values read from the
`Surface` collaborator by crown.cpp lines 69-70), the private deep copy of the
surface inputs taken at construction (crown.cpp line 17), and the
rational-valued member fields written by the calculation pipeline.  The two
real-valued members (`crownFlameLength_`, `crownCriticalSurfaceFireIntensity_`
and the critical flame length derived from it), whose formulas involve the
real power function, are modelled by the standalone functions
`calculateCrownCriticalSurfaceFireIntensity` and `calculateFlameLength`; they
are read by no rational field carried here. -/
structure Crown where
  surfaceInputs : SurfaceInputs
  crownInputs : CrownInputs
  surfaceHeatPerUnitArea : ℚ
  surfaceFirelineIntensity : ℚ
  crownDeepCopyOfSurfaceInputs : SurfaceInputs
  windSpeedAtTwentyFeet : ℚ
  crownFireSpreadRate : ℚ
  crownCopyOfSurfaceHeatPerUnitArea : ℚ
  crownCopyOfSurfaceFirelineIntensity : ℚ
  crownFuelLoad : ℚ
  canopyHeatPerUnitArea : ℚ
  crownFireHeatPerUnitArea : ℚ
  crownFirelineIntensity : ℚ
  crownCriticalFireSpreadRate : ℚ
  crownPowerOfFire : ℚ
  crownPowerOfWind : ℚ
deriving DecidableEq

/-- `Crown::Crown` (crown.cpp lines 8-18): the constructor stores references
to the collaborators and takes a deep copy of the caller's surface inputs
into `crownDeepCopyOfSurfaceInputs_`.  The calculated members are not
initialized by the constructor; they are zero-initialized here. -/
def Crown.construct (crownInputs : CrownInputs) (surfaceInputs : SurfaceInputs)
    (surfaceHeatPerUnitArea surfaceFirelineIntensity : ℚ) : Crown where
  surfaceInputs := surfaceInputs
  crownInputs := crownInputs
  surfaceHeatPerUnitArea := surfaceHeatPerUnitArea
  surfaceFirelineIntensity := surfaceFirelineIntensity
  crownDeepCopyOfSurfaceInputs := surfaceInputs
  windSpeedAtTwentyFeet := 0
  crownFireSpreadRate := 0
  crownCopyOfSurfaceHeatPerUnitArea := 0
  crownCopyOfSurfaceFirelineIntensity := 0
  crownFuelLoad := 0
  canopyHeatPerUnitArea := 0
  crownFireHeatPerUnitArea := 0
  crownFirelineIntensity := 0
  crownCriticalFireSpreadRate := 0
  crownPowerOfFire := 0
  crownPowerOfWind := 0

/-- `Crown::calculateCrownFuelLoad` (crown.cpp lines 116-122): canopy bulk
density times the difference of canopy height (from the caller's surface
inputs) and canopy base height. -/
def Crown.calculateCrownFuelLoad (c : Crown) : Crown :=
  { c with crownFuelLoad :=
      c.crownInputs.canopyBulkDensity *
        (c.surfaceInputs.canopyHeight - c.crownInputs.canopyBaseHeight) }

/-- `Crown::calculateCanopyHeatPerUnitArea` (crown.cpp lines 94-98): crown
fuel load times the fixed low heat of combustion 8000 Btu/lb. -/
def Crown.calculateCanopyHeatPerUnitArea (c : Crown) : Crown :=
  { c with canopyHeatPerUnitArea := c.crownFuelLoad * 8000.0 }

/-- `Crown::calculateCrownFireHeatPerUnitArea` (crown.cpp lines 105-108):
surface heat per unit area plus canopy heat per unit area. -/
def Crown.calculateCrownFireHeatPerUnitArea (c : Crown) : Crown :=
  { c with crownFireHeatPerUnitArea :=
      c.crownCopyOfSurfaceHeatPerUnitArea + c.canopyHeatPerUnitArea }

/-- `Crown::calculateCrownFirelineIntensity` (crown.cpp lines 151-154):
(crown spread rate / 60) times crown fire heat per unit area. -/
def Crown.calculateCrownFirelineIntensity (c : Crown) : Crown :=
  { c with crownFirelineIntensity :=
      (c.crownFireSpreadRate / 60.0) * c.crownFireHeatPerUnitArea }

/-- `Crown::calculateCrownCriticalFireSpreadRate` as a pipeline step (crown.cpp
lines 261-272), storing the standalone formula's value. -/
def Crown.calculateCrownCriticalFireSpreadRateStep (c : Crown) : Crown :=
  { c with crownCriticalFireSpreadRate :=
      calculateCrownCriticalFireSpreadRate c.crownInputs.canopyBulkDensity }

/-- `Crown::calculateCrownPowerOfFire` (crown.cpp lines 217-220): crown
fireline intensity divided by 129. -/
def Crown.calculateCrownPowerOfFire (c : Crown) : Crown :=
  { c with crownPowerOfFire := c.crownFirelineIntensity / 129.0 }

/-- `Crown::calcuateCrownPowerOfWind` (crown.cpp lines 228-242, source name
kept with its typo): recomputes the twenty-foot wind speed from the caller's
inputs, converts it miles-per-hour to feet-per-minute (factor 5280/60),
subtracts the crown spread rate and divides by 60, floors the difference at 0
below 1e-7, and cubes it times 0.00106. -/
def Crown.calcuateCrownPowerOfWind (c : Crown) : Crown :=
  let windSpeedAtTwentyFeet := calculateWindSpeedAtTwentyFeet c.surfaceInputs
  let windSpeedInFeetPerMinute := windSpeedAtTwentyFeet * (5280.0 / 60.0)
  let windspeedMinusCrownROS := (windSpeedInFeetPerMinute - c.crownFireSpreadRate) / 60.0
  let windspeedMinusCrownROS := if windspeedMinusCrownROS < 1e-7 then 0 else windspeedMinusCrownROS
  { c with windSpeedAtTwentyFeet := windSpeedAtTwentyFeet,
           crownPowerOfWind :=
             0.00106 * (windspeedMinusCrownROS * windspeedMinusCrownROS * windspeedMinusCrownROS) }

/-- `Crown::calculateCrownFireSpreadRate` (crown.cpp lines 53-87).  Step 1
builds the synthetic crown scenario on the private deep copy:
`setFuelModelNumber(10)`, `setSlope(0.0)`, `setWindDirection(0.0)`, then the
copy's wind speed is set to 0.4 (the assumed wind adjustment factor) times the
twenty-foot wind speed computed from the caller's inputs.  Step 2 multiplies
the forward spread rate of that scenario — `SurfaceFireSpread::
calculateForwardSpreadRate`, a parameter here since surfaceFire.cpp is not
among the sources — by the Rothermel 1991 constant 3.34.  Step 3 copies the
surface heat per unit area and fireline intensity from the `Surface`
collaborator.  Step 4 runs the remaining pipeline steps in source order; the
critical-surface-intensity and flame-length steps write only the real-valued
members modelled by the standalone functions.  Returns the crown fire spread
rate together with the updated engine state. -/
def Crown.calculateCrownFireSpreadRate (calculateForwardSpreadRate : SurfaceInputs → ℚ)
    (c : Crown) : ℚ × Crown :=
  let copy := setFuelModelNumber c.crownDeepCopyOfSurfaceInputs 10
  let copy := setSlope copy 0
  let copy := setWindDirection copy 0
  let windAdjustmentFactor : ℚ := 0.4
  let windSpeedAtTwentyFeet := calculateWindSpeedAtTwentyFeet c.surfaceInputs
  let midflameWindSpeed := windAdjustmentFactor * windSpeedAtTwentyFeet
  let copy := { copy with windSpeed := midflameWindSpeed }
  let c := { c with crownDeepCopyOfSurfaceInputs := copy,
                    windSpeedAtTwentyFeet := windSpeedAtTwentyFeet }
  let c := { c with crownFireSpreadRate :=
      3.34 * calculateForwardSpreadRate c.crownDeepCopyOfSurfaceInputs }
  let c := { c with crownCopyOfSurfaceHeatPerUnitArea := c.surfaceHeatPerUnitArea,
                    crownCopyOfSurfaceFirelineIntensity := c.surfaceFirelineIntensity }
  let c := c.calculateCrownFuelLoad
  let c := c.calculateCanopyHeatPerUnitArea
  let c := c.calculateCrownFireHeatPerUnitArea
  let c := c.calculateCrownFirelineIntensity
  let c := c.calculateCrownCriticalFireSpreadRateStep
  let c := c.calculateCrownPowerOfFire
  let c := c.calcuateCrownPowerOfWind
  (c.crownFireSpreadRate, c)

theorem reduceWindDirection_lt (w : ℚ) : reduceWindDirection w < 360 := by
  induction w using reduceWindDirection.induct with
  | case1 w h ih =>
    rw [reduceWindDirection, dif_pos h]
    exact ih
  | case2 w h =>
    rw [reduceWindDirection, dif_neg h]
    exact lt_of_not_le h

theorem reduceWindDirection_nonneg (w : ℚ) : 0 ≤ w → 0 ≤ reduceWindDirection w := by
  induction w using reduceWindDirection.induct with
  | case1 w h ih =>
    intro _
    rw [reduceWindDirection, dif_pos h]
    exact ih (by linarith)
  | case2 w h =>
    intro hw
    rw [reduceWindDirection, dif_neg h]
    exact hw

/-- C7: after any call to `setIsUsingPalmettoGallberry`, `setIsUsingWesternAspen`
or `setIsUsingChaparral` with any boolean argument, from any state in which at
most one special-fuel flag is set, at most one of the three special-fuel flags
is set; and enabling any one of the three clears the other two. -/
theorem specialFuelFlags_mutuallyExclusive :
    ∀ (s : SurfaceInputs) (b : Bool),
      specialFuelFlagCount s ≤ 1 →
      (specialFuelFlagCount (setIsUsingPalmettoGallberry s b) ≤ 1 ∧
        specialFuelFlagCount (setIsUsingWesternAspen s b) ≤ 1 ∧
        specialFuelFlagCount (setIsUsingChaparral s b) ≤ 1) ∧
      ((setIsUsingPalmettoGallberry s true).isUsingWesternAspen = false ∧
        (setIsUsingPalmettoGallberry s true).isUsingChaparral = false ∧
        (setIsUsingWesternAspen s true).isUsingPalmettoGallberry = false ∧
        (setIsUsingWesternAspen s true).isUsingChaparral = false ∧
        (setIsUsingChaparral s true).isUsingPalmettoGallberry = false ∧
        (setIsUsingChaparral s true).isUsingWesternAspen = false) := by
  intro s b hs
  cases hb : b <;>
    cases h1 : s.isUsingPalmettoGallberry <;>
    cases h2 : s.isUsingWesternAspen <;>
    cases h3 : s.isUsingChaparral <;>
    simp_all [setIsUsingPalmettoGallberry, setIsUsingWesternAspen, setIsUsingChaparral,
      specialFuelFlagCount]

/-- C7 witness: the mutual-exclusivity theorem applied at the initial inputs
state with the flag argument true. -/
theorem specialFuelFlags_mutuallyExclusive_witness :
    (specialFuelFlagCount (setIsUsingPalmettoGallberry initialSurfaceInputs true) ≤ 1 ∧
      specialFuelFlagCount (setIsUsingWesternAspen initialSurfaceInputs true) ≤ 1 ∧
      specialFuelFlagCount (setIsUsingChaparral initialSurfaceInputs true) ≤ 1) ∧
    ((setIsUsingPalmettoGallberry initialSurfaceInputs true).isUsingWesternAspen = false ∧
      (setIsUsingPalmettoGallberry initialSurfaceInputs true).isUsingChaparral = false ∧
      (setIsUsingWesternAspen initialSurfaceInputs true).isUsingPalmettoGallberry = false ∧
      (setIsUsingWesternAspen initialSurfaceInputs true).isUsingChaparral = false ∧
      (setIsUsingChaparral initialSurfaceInputs true).isUsingPalmettoGallberry = false ∧
      (setIsUsingChaparral initialSurfaceInputs true).isUsingWesternAspen = false) :=
  specialFuelFlags_mutuallyExclusive initialSurfaceInputs true (by decide)

/-- C8 counterexample to the claim as stated: `setWindDirection` stores its
argument unchanged, so the stored wind direction after
`setWindDirection(-10)` is -10, outside [0, 360); and
`updateSurfaceInputs` adds 360 only once to a negative argument, so a wind
direction argument of -400 is stored as -40, also outside [0, 360). -/
theorem windDirection_storage_counterexample :
    ((setWindDirection initialSurfaceInputs (-10)).windDirection = -10 ∧
      ¬ (0 ≤ (setWindDirection initialSurfaceInputs (-10)).windDirection)) ∧
    ((updateSurfaceInputs initialSurfaceInputs 1 0 0 0 0 0 0
          WindHeightInputModeEnum.TwentyFoot (-400) 0 0 0 0 0).windDirection = -40 ∧
      ¬ (0 ≤ (updateSurfaceInputs initialSurfaceInputs 1 0 0 0 0 0 0
          WindHeightInputModeEnum.TwentyFoot (-400) 0 0 0 0 0).windDirection)) := by
  have hupd : (updateSurfaceInputs initialSurfaceInputs 1 0 0 0 0 0 0
      WindHeightInputModeEnum.TwentyFoot (-400) 0 0 0 0 0).windDirection
      = reduceWindDirection (if (-400 : ℚ) < 0 then -400 + 360 else -400) := rfl
  have hval : reduceWindDirection (if (-400 : ℚ) < 0 then -400 + 360 else -400) = -40 := by
    rw [if_pos (by norm_num : (-400 : ℚ) < 0)]
    rw [reduceWindDirection, dif_neg (by norm_num : ¬ (360 : ℚ) ≤ -400 + 360)]
    norm_num
  refine ⟨⟨rfl, ?_⟩, ?_, ?_⟩
  · show ¬ ((0 : ℚ) ≤ -10)
    norm_num
  · rw [hupd, hval]
  · rw [hupd, hval]
    norm_num

/-- C8 (amended): `updateSurfaceInputs` normalizes the wind direction (one
+360 correction when negative, then repeated -360 while at least 360), so for
every argument at least -360 the stored wind direction lies in [0, 360);
`setWindDirection` stores its argument unchanged. -/
theorem windDirection_storage_spec :
    ∀ (s : SurfaceInputs) (n : Int) (m1 m10 m100 mlh mlw ws : ℚ)
      (mode : WindHeightInputModeEnum) (wd sl asp cc ch cr : ℚ),
      (-360 ≤ wd →
        0 ≤ (updateSurfaceInputs s n m1 m10 m100 mlh mlw ws mode wd sl asp cc ch cr).windDirection ∧
        (updateSurfaceInputs s n m1 m10 m100 mlh mlw ws mode wd sl asp cc ch cr).windDirection < 360) ∧
      (setWindDirection s wd).windDirection = wd := by
  intro s n m1 m10 m100 mlh mlw ws mode wd sl asp cc ch cr
  constructor
  · intro hwd
    have heq : (updateSurfaceInputs s n m1 m10 m100 mlh mlw ws mode wd sl asp cc ch cr).windDirection
        = reduceWindDirection (if wd < 0 then wd + 360 else wd) := rfl
    rw [heq]
    refine ⟨reduceWindDirection_nonneg _ ?_, reduceWindDirection_lt _⟩
    split_ifs with hneg
    · linarith
    · exact not_lt.mp hneg
  · rfl

/-- C8 witness: the amended normalization theorem applied at the initial
state with wind direction argument 370. -/
theorem windDirection_storage_spec_witness :
    (0 ≤ (updateSurfaceInputs initialSurfaceInputs 1 0 0 0 0 0 0
        WindHeightInputModeEnum.TwentyFoot 370 0 0 0 0 0).windDirection ∧
      (updateSurfaceInputs initialSurfaceInputs 1 0 0 0 0 0 0
        WindHeightInputModeEnum.TwentyFoot 370 0 0 0 0 0).windDirection < 360) ∧
    (setWindDirection initialSurfaceInputs 370).windDirection = 370 := by
  have h := windDirection_storage_spec initialSurfaceInputs 1 0 0 0 0 0 0
    WindHeightInputModeEnum.TwentyFoot 370 0 0 0 0 0
  exact ⟨h.1 (by norm_num), h.2⟩

/-- C9: `calculateWindSpeedAtTwentyFeet` returns the stored wind speed
unchanged in `TwentyFoot` mode, its fixed-ratio ten-metre conversion in
`TenMeter` mode, and the negative error sentinel -1 in the remaining
(default) `DirectMidflame` mode. -/
theorem calculateWindSpeedAtTwentyFeet_spec :
    ∀ s : SurfaceInputs,
      calculateWindSpeedAtTwentyFeet
          { s with windHeightInputMode := WindHeightInputModeEnum.TwentyFoot } = s.windSpeed ∧
      calculateWindSpeedAtTwentyFeet
          { s with windHeightInputMode := WindHeightInputModeEnum.TenMeter } =
        windSpeedAtTwentyFeetFromTenMeter s.windSpeed ∧
      calculateWindSpeedAtTwentyFeet
          { s with windHeightInputMode := WindHeightInputModeEnum.DirectMidflame } = -1 ∧
      calculateWindSpeedAtTwentyFeet
          { s with windHeightInputMode := WindHeightInputModeEnum.DirectMidflame } < 0 := by
  intro s
  refine ⟨rfl, rfl, rfl, ?_⟩
  have h : calculateWindSpeedAtTwentyFeet
      { s with windHeightInputMode := WindHeightInputModeEnum.DirectMidflame } = -1 := rfl
  rw [h]
  norm_num

/-- C1: for every input configuration, `Crown::calculateCrownFireSpreadRate`
returns 3.34 times the forward spread rate that the surface spread model
computes on the synthetic scenario derived from the caller's inputs by
overriding the fuel model to 10, the slope to 0, the wind direction to 0
(upslope) and the wind speed to 0.4 (the assumed wind-adjustment factor)
times the twenty-foot wind speed. -/
theorem crownFireSpreadRate_standardizedScenario :
    ∀ (crownInputs : CrownInputs) (surfaceInputs : SurfaceInputs)
      (surfaceHeatPerUnitArea surfaceFirelineIntensity : ℚ)
      (calculateForwardSpreadRate : SurfaceInputs → ℚ),
      (Crown.calculateCrownFireSpreadRate calculateForwardSpreadRate
          (Crown.construct crownInputs surfaceInputs surfaceHeatPerUnitArea
            surfaceFirelineIntensity)).1 =
        3.34 * calculateForwardSpreadRate
          { surfaceInputs with
            fuelModelNumber := 10, slope := 0, windDirection := 0,
            windSpeed := 0.4 * calculateWindSpeedAtTwentyFeet surfaceInputs } := by
  intro crownInputs surfaceInputs hpua fi f
  rfl

/-- C10: `Crown::calculateCrownFireSpreadRate` leaves the caller-supplied
`SurfaceInputs` unchanged: the fuel-model-10 / zero-slope / upslope-wind /
scaled-wind-speed overrides of the synthetic crown scenario are applied only
to the private deep copy taken at construction, and the caller's inputs are
only read. -/
theorem crownFireSpreadRate_preservesCallerInputs :
    ∀ (crownInputs : CrownInputs) (surfaceInputs : SurfaceInputs)
      (surfaceHeatPerUnitArea surfaceFirelineIntensity : ℚ)
      (calculateForwardSpreadRate : SurfaceInputs → ℚ),
      (Crown.calculateCrownFireSpreadRate calculateForwardSpreadRate
          (Crown.construct crownInputs surfaceInputs surfaceHeatPerUnitArea
            surfaceFirelineIntensity)).2.surfaceInputs = surfaceInputs ∧
      (Crown.calculateCrownFireSpreadRate calculateForwardSpreadRate
          (Crown.construct crownInputs surfaceInputs surfaceHeatPerUnitArea
            surfaceFirelineIntensity)).2.crownDeepCopyOfSurfaceInputs =
        { surfaceInputs with
          fuelModelNumber := 10, slope := 0, windDirection := 0,
          windSpeed := 0.4 * calculateWindSpeedAtTwentyFeet surfaceInputs } := by
  intro crownInputs surfaceInputs hpua fi f
  exact ⟨rfl, rfl⟩

/-- C2: `Crown::calculateCrownCriticalSurfaceFireIntensity` returns
[0.01 x hm x (450 + 25.9 x mp)]^1.5 converted from kW/m to Btu/ft/s by the
factor 0.288672, where mp is the foliar moisture floored at 30 percent and hm
is the canopy base height converted to metres (factor 0.3048) and floored at
0.1 m; the published constant is 450, not 460. -/
theorem crownCriticalSurfaceFireIntensity_formula :
    ∀ (m h : ℚ),
      calculateCrownCriticalSurfaceFireIntensity m h =
        ((0.01 * max ((h : ℝ) * 0.3048) 0.1 * (450 + 25.9 * max (m : ℝ) 30)) ^ (1.5 : ℝ))
          * 0.288672 := by
  intro m h
  have hm : (if m < 30 then (30 : ℚ) else m) = max m 30 := by
    rcases lt_or_le m 30 with h1 | h1
    · rw [if_pos h1, max_eq_right h1.le]
    · rw [if_neg (not_lt.mpr h1), max_eq_left h1]
  have hh : (if h * 0.3048 < 0.1 then (0.1 : ℚ) else h * 0.3048) = max (h * 0.3048) 0.1 := by
    rcases lt_or_le (h * 0.3048) (0.1 : ℚ) with h1 | h1
    · rw [if_pos h1, max_eq_right h1.le]
    · rw [if_neg (not_lt.mpr h1), max_eq_left h1]
  have harg : ((0.010 : ℝ) * ((max (h * 0.3048) 0.1 : ℚ) : ℝ)
      * (450.0 + 25.9 * ((max m 30 : ℚ) : ℝ)))
      = (0.01 * max ((h : ℝ) * 0.3048) 0.1 * (450 + 25.9 * max (m : ℝ) 30)) := by
    push_cast
    norm_num
  simp only [calculateCrownCriticalSurfaceFireIntensity]
  rw [hm, hh, harg]

/-- C3: `Surface::calculateFlameLength` on a base-unit fireline intensity I
returns 0 when I < 1e-7 and 0.45 x I^0.46 when I is at least 1e-7; it is
monotonically non-decreasing in I, and equals 0 exactly when I < 1e-7. -/
theorem calculateFlameLength_spec :
    (∀ I : ℝ, I < 1e-7 → calculateFlameLength I = 0) ∧
    (∀ I : ℝ, 1e-7 ≤ I → calculateFlameLength I = 0.45 * I ^ (0.46 : ℝ)) ∧
    (∀ a b : ℝ, a ≤ b → calculateFlameLength a ≤ calculateFlameLength b) ∧
    (∀ I : ℝ, calculateFlameLength I = 0 ↔ I < 1e-7) := by
  have hzero : ∀ I : ℝ, I < 1e-7 → calculateFlameLength I = 0 := by
    intro I hI
    unfold calculateFlameLength
    rw [if_pos hI]
  have hpow : ∀ I : ℝ, 1e-7 ≤ I → calculateFlameLength I = 0.45 * I ^ (0.46 : ℝ) := by
    intro I hI
    unfold calculateFlameLength
    rw [if_neg (not_lt.mpr hI)]
  have hmono : ∀ a b : ℝ, a ≤ b → calculateFlameLength a ≤ calculateFlameLength b := by
    intro a b hab
    unfold calculateFlameLength
    split_ifs with h1 h2 h2
    · exact le_rfl
    · exact mul_nonneg (by norm_num) (Real.rpow_nonneg (by linarith) _)
    · linarith
    · exact mul_le_mul_of_nonneg_left
        (Real.rpow_le_rpow (by linarith) hab (by norm_num)) (by norm_num)
  have hiff : ∀ I : ℝ, calculateFlameLength I = 0 ↔ I < 1e-7 := by
    intro I
    constructor
    · intro h0
      by_contra hge
      have hI : (1e-7 : ℝ) ≤ I := not_lt.mp hge
      have hpos : 0 < 0.45 * I ^ (0.46 : ℝ) :=
        mul_pos (by norm_num) (Real.rpow_pos_of_pos (by linarith) _)
      rw [hpow I hI] at h0
      linarith
    · exact hzero I
  exact ⟨hzero, hpow, hmono, hiff⟩

/-- C3 witness: the flame-length theorem applied at intensities 0 and 1. -/
theorem calculateFlameLength_spec_witness :
    calculateFlameLength 0 = 0 ∧
    calculateFlameLength 1 = 0.45 * (1 : ℝ) ^ (0.46 : ℝ) ∧
    calculateFlameLength 0 ≤ calculateFlameLength 1 ∧
    (calculateFlameLength 1 = 0 ↔ (1 : ℝ) < 1e-7) :=
  ⟨calculateFlameLength_spec.1 0 (by norm_num),
   calculateFlameLength_spec.2.1 1 (by norm_num),
   calculateFlameLength_spec.2.2.1 0 1 (by norm_num),
   calculateFlameLength_spec.2.2.2 1⟩

/-- C5: `Crown::calculateCrownFireTransitionRatio` returns 0 when the stored
critical surface fireline intensity is below 1e-7, and the stored surface
fireline intensity divided by it otherwise. -/
theorem crownFireTransitionRatio_spec :
    ∀ (surfaceFirelineIntensity criticalIntensity : ℚ),
      (criticalIntensity < 1e-7 →
        calculateCrownFireTransitionRatio surfaceFirelineIntensity criticalIntensity = 0) ∧
      (1e-7 ≤ criticalIntensity →
        calculateCrownFireTransitionRatio surfaceFirelineIntensity criticalIntensity =
          surfaceFirelineIntensity / criticalIntensity) := by
  intro s c
  constructor
  · intro h
    unfold calculateCrownFireTransitionRatio
    rw [if_pos h]
  · intro h
    unfold calculateCrownFireTransitionRatio
    rw [if_neg (not_lt.mpr h)]

/-- C5 witness: the transition-ratio theorem applied at critical intensities
0 (below the guard) and 3 (above it). -/
theorem crownFireTransitionRatio_spec_witness :
    calculateCrownFireTransitionRatio 5 0 = 0 ∧
    calculateCrownFireTransitionRatio 6 3 = 6 / 3 :=
  ⟨(crownFireTransitionRatio_spec 5 0).1 (by norm_num),
   (crownFireTransitionRatio_spec 6 3).2 (by norm_num)⟩

/-- C6 counterexample to the claim as stated: at canopy bulk density 10^9
lb/ft3 the converted density 16.0185e9 kg/m3 is not below 1e-7, yet with
crown spread rate 1 the active ratio is 0 and not the spread rate divided by
the critical rate (which is nonzero to divide by), because the critical rate
itself — about 6.1e-10 ft/min — falls below the separate 1e-7 guard inside
`Crown::calculateCrownFireActiveRatio`. -/
theorem crownFireActiveRatio_counterexample :
    ¬ (16.0185 * (10 ^ 9 : ℚ) < 1e-7) ∧
    calculateCrownFireActiveRatio 1 (calculateCrownCriticalFireSpreadRate (10 ^ 9)) = 0 ∧
    (1 : ℚ) / calculateCrownCriticalFireSpreadRate (10 ^ 9) ≠ 0 := by
  have hval : calculateCrownCriticalFireSpreadRate (10 ^ 9) =
      (3.0 / (16.0185 * 10 ^ 9)) * 3.28084 := by
    simp only [calculateCrownCriticalFireSpreadRate]
    rw [if_neg (by norm_num : ¬ (16.0185 * (10 ^ 9 : ℚ) < 1e-7))]
  refine ⟨by norm_num, ?_, ?_⟩
  · unfold calculateCrownFireActiveRatio
    rw [if_pos (by rw [hval]; norm_num)]
  · rw [hval]
    norm_num

/-- C6 (amended): when the converted canopy bulk density (factor 16.0185) is
below 1e-7, the critical crown spread rate is 0 and the active ratio is 0;
otherwise the critical rate is 3 divided by the converted density, converted
m/min to ft/min (factor 3.28084); and the active-ratio division is guarded by
the 1e-7 threshold on the critical rate itself: the active ratio is 0 when
the critical rate is below 1e-7 and the crown spread rate divided by the
critical rate otherwise. -/
theorem crownCriticalSpreadRate_activeRatio_spec :
    ∀ (canopyBulkDensity crownFireSpreadRate : ℚ),
      (16.0185 * canopyBulkDensity < 1e-7 →
        calculateCrownCriticalFireSpreadRate canopyBulkDensity = 0 ∧
        calculateCrownFireActiveRatio crownFireSpreadRate
          (calculateCrownCriticalFireSpreadRate canopyBulkDensity) = 0) ∧
      (1e-7 ≤ 16.0185 * canopyBulkDensity →
        calculateCrownCriticalFireSpreadRate canopyBulkDensity =
          (3 / (16.0185 * canopyBulkDensity)) * 3.28084) ∧
      (calculateCrownCriticalFireSpreadRate canopyBulkDensity < 1e-7 →
        calculateCrownFireActiveRatio crownFireSpreadRate
          (calculateCrownCriticalFireSpreadRate canopyBulkDensity) = 0) ∧
      (1e-7 ≤ calculateCrownCriticalFireSpreadRate canopyBulkDensity →
        calculateCrownFireActiveRatio crownFireSpreadRate
          (calculateCrownCriticalFireSpreadRate canopyBulkDensity) =
          crownFireSpreadRate / calculateCrownCriticalFireSpreadRate canopyBulkDensity) := by
  intro d r
  refine ⟨?_, ?_, ?_, ?_⟩
  · intro h
    have hc : calculateCrownCriticalFireSpreadRate d = 0 := by
      simp only [calculateCrownCriticalFireSpreadRate]
      rw [if_pos h]
      ring
    refine ⟨hc, ?_⟩
    rw [hc]
    unfold calculateCrownFireActiveRatio
    rw [if_pos (by norm_num)]
  · intro h
    simp only [calculateCrownCriticalFireSpreadRate]
    rw [if_neg (not_lt.mpr h)]
    norm_num
  · intro h
    unfold calculateCrownFireActiveRatio
    rw [if_pos h]
  · intro h
    unfold calculateCrownFireActiveRatio
    rw [if_neg (not_lt.mpr h)]

/-- C6 witness: the amended theorem applied at canopy bulk densities 0 (below
the converted-density guard), 1 (above both guards, with crown spread rates 1
and 2) and 10^9 (above the converted-density guard but below the
critical-rate guard). -/
theorem crownCriticalSpreadRate_activeRatio_spec_witness :
    (calculateCrownCriticalFireSpreadRate 0 = 0 ∧
      calculateCrownFireActiveRatio 1 (calculateCrownCriticalFireSpreadRate 0) = 0) ∧
    calculateCrownCriticalFireSpreadRate 1 = (3 / (16.0185 * 1)) * 3.28084 ∧
    calculateCrownFireActiveRatio 1 (calculateCrownCriticalFireSpreadRate (10 ^ 9)) = 0 ∧
    calculateCrownFireActiveRatio 2 (calculateCrownCriticalFireSpreadRate 1) =
      2 / calculateCrownCriticalFireSpreadRate 1 := by
  have h9 : calculateCrownCriticalFireSpreadRate (10 ^ 9) < 1e-7 := by
    simp only [calculateCrownCriticalFireSpreadRate]
    rw [if_neg (by norm_num : ¬ (16.0185 * (10 ^ 9 : ℚ) < 1e-7))]
    norm_num
  have h1 : (1e-7 : ℚ) ≤ calculateCrownCriticalFireSpreadRate 1 := by
    simp only [calculateCrownCriticalFireSpreadRate]
    rw [if_neg (by norm_num : ¬ (16.0185 * (1 : ℚ) < 1e-7))]
    norm_num
  exact ⟨(crownCriticalSpreadRate_activeRatio_spec 0 1).1 (by norm_num),
    (crownCriticalSpreadRate_activeRatio_spec 1 1).2.1 (by norm_num),
    (crownCriticalSpreadRate_activeRatio_spec (10 ^ 9) 1).2.2.1 h9,
    (crownCriticalSpreadRate_activeRatio_spec 1 2).2.2.2 h1⟩

/-- C4 counterexample to the claim as stated: with the palmetto-gallberry
flag set and a fuel catalog in which every model has all-zero load (and is
defined), the direction-of-max-spread run still takes the Rothermel branch —
its zero-load check is bypassed whenever a special fuel model is in use — and
produces the spread collaborator's nonzero output instead of zero. -/
theorem surfaceRun_zeroLoad_counterexample :
    (doSurfaceRunInDirectionOfMaxSpread ⟨fun _ => true, fun _ => true⟩
        (fun _ => ⟨1, 1, 1, 1⟩) (fun _ _ _ _ => ⟨2, 2, 2, 2⟩)
        (setIsUsingPalmettoGallberry initialSurfaceInputs true) ⟨3, 3, 3, 3⟩).1 =
      SurfaceRunBranch.rothermelRun ∧
    (doSurfaceRunInDirectionOfMaxSpread ⟨fun _ => true, fun _ => true⟩
        (fun _ => ⟨1, 1, 1, 1⟩) (fun _ _ _ _ => ⟨2, 2, 2, 2⟩)
        (setIsUsingPalmettoGallberry initialSurfaceInputs true) ⟨3, 3, 3, 3⟩).2.spreadRate ≠ 0 := by
  constructor
  · rfl
  · show (2 : ℚ) ≠ 0
    norm_num

/-- C4 (amended): for a surface run with the two-fuel-models mode off, when
the selected fuel model has all-zero load or is undefined, the zero-load
short-circuit runs instead of the Rothermel formulas and spread rate,
fireline intensity, flame length and heat per unit area are all exactly 0 —
for the direction-of-max-spread run provided additionally that no
special-fuel flag (palmetto-gallberry, western aspen, chaparral) is set, and
for the direction-of-interest run regardless of the special-fuel flags. -/
theorem surfaceRun_zeroLoad_spec :
    ∀ (fuelModels : FuelModels)
      (calculateWeightedSpreadRate : SurfaceInputs → SurfaceFireState)
      (calculateForwardSpreadRate : SurfaceInputs → Int → Bool → ℚ → SurfaceFireState)
      (s : SurfaceInputs) (fire : SurfaceFireState) (directionOfInterest : ℚ),
      s.isUsingTwoFuelModels = false →
      (fuelModels.isAllFuelLoadZero s.fuelModelNumber ||
        !fuelModels.isFuelModelDefined s.fuelModelNumber) = true →
      ((s.isUsingPalmettoGallberry = false → s.isUsingWesternAspen = false →
          s.isUsingChaparral = false →
          doSurfaceRunInDirectionOfMaxSpread fuelModels calculateWeightedSpreadRate
              calculateForwardSpreadRate s fire =
            (SurfaceRunBranch.skipZeroLoad,
              { spreadRate := 0, firelineIntensity := 0, flameLength := 0,
                heatPerUnitArea := 0 })) ∧
        doSurfaceRunInDirectionOfInterest fuelModels calculateWeightedSpreadRate
            calculateForwardSpreadRate s fire directionOfInterest =
          (SurfaceRunBranch.skipZeroLoad,
            { spreadRate := 0, firelineIntensity := 0, flameLength := 0,
              heatPerUnitArea := 0 })) := by
  intro fm weighted forward s fire d h2f hz
  constructor
  · intro h1 h2 h3
    unfold doSurfaceRunInDirectionOfMaxSpread
    simp [h2f, h1, h2, h3, hz, skipCalculationForZeroLoad]
  · unfold doSurfaceRunInDirectionOfInterest
    simp [h2f, hz, skipCalculationForZeroLoad]

/-- C4 witness: the amended theorem applied to the initial inputs state (no
special flags, two-fuel mode off) with an all-zero-load fuel catalog. -/
theorem surfaceRun_zeroLoad_spec_witness :
    doSurfaceRunInDirectionOfMaxSpread ⟨fun _ => true, fun _ => true⟩
        (fun _ => ⟨1, 1, 1, 1⟩) (fun _ _ _ _ => ⟨2, 2, 2, 2⟩)
        initialSurfaceInputs ⟨3, 3, 3, 3⟩ =
      (SurfaceRunBranch.skipZeroLoad,
        { spreadRate := 0, firelineIntensity := 0, flameLength := 0, heatPerUnitArea := 0 }) ∧
    doSurfaceRunInDirectionOfInterest ⟨fun _ => true, fun _ => true⟩
        (fun _ => ⟨1, 1, 1, 1⟩) (fun _ _ _ _ => ⟨2, 2, 2, 2⟩)
        initialSurfaceInputs ⟨3, 3, 3, 3⟩ 45 =
      (SurfaceRunBranch.skipZeroLoad,
        { spreadRate := 0, firelineIntensity := 0, flameLength := 0, heatPerUnitArea := 0 }) := by
  have h := surfaceRun_zeroLoad_spec ⟨fun _ => true, fun _ => true⟩
    (fun _ => ⟨1, 1, 1, 1⟩) (fun _ _ _ _ => ⟨2, 2, 2, 2⟩)
    initialSurfaceInputs ⟨3, 3, 3, 3⟩ 45 rfl rfl
  exact ⟨h.1 rfl rfl rfl, h.2⟩
